import Mathlib

/-!
Shallow embedding of the `mcp-atlassian` CDK deployment repository.

The repository contains two near-duplicate CDK stack definitions
(`McpAtlassianStack`): one using Secrets Manager credentials with no load
balancer (shared-credentials / private-only), and one using per-request
OAuth env vars with a public Application Load Balancer
(per-request-oauth / public-alb).  Each stack constructor is embedded
below as a pure resolver from the operator-supplied context inputs
(`existingVpcName`, `allowedCidr`) to a `ResourceSpecification`
describing every resource the constructor declares.
-/

namespace McpAtlassian

/-- Credential mode of a stack variant (spec vocabulary). -/
inductive AuthMode
  | sharedCredentials
  | perRequestOauth
deriving DecidableEq, Repr

/-- Exposure mode of a stack variant (spec vocabulary). -/
inductive ExposureMode
  | privateOnly
  | publicAlb
deriving DecidableEq, Repr

/-- The two concrete stack definition files found in the repository.
`sharedPrivate` is `cdk/lib/mcp-atlassian-stack.ts` (Secrets Manager, no
ALB); `oauthAlb` is the ALB variant (plain env vars, public ALB). -/
inductive Variant
  | sharedPrivate
  | oauthAlb
deriving DecidableEq, Repr

/-- The credential mode each source variant implements. -/
def Variant.authMode : Variant → AuthMode
  | .sharedPrivate => .sharedCredentials
  | .oauthAlb => .perRequestOauth

/-- The exposure mode each source variant implements. -/
def Variant.exposureMode : Variant → ExposureMode
  | .sharedPrivate => .privateOnly
  | .oauthAlb => .publicAlb

/-- Operator-supplied configuration: the two CDK context values
(`tryGetContext`), both nullable, plus the choice of stack variant. -/
structure DeploymentConfig where
  existingVpcName : Option String
  allowedCidr : Option String
  variant : Variant
deriving DecidableEq, Repr

/-- Subnet tier types used in the VPC's `subnetConfiguration`. -/
inductive SubnetType
  | publicSubnet
  | privateWithEgress
deriving DecidableEq, Repr

/-- One entry of the VPC `subnetConfiguration`. -/
structure SubnetTier where
  cidrMask : Nat
  name : String
  subnetType : SubnetType
deriving DecidableEq, Repr

/-- Network topology: either an imported VPC (looked up by name,
`ec2.Vpc.fromLookup`) or a newly created VPC (`new ec2.Vpc`). -/
inductive NetworkTopology
  | imported (vpcName : String)
  | created (vpcName : String) (cidrBlock : String) (maxAzs : Nat)
      (natGateways : Nat) (subnetConfiguration : List SubnetTier)
deriving DecidableEq, Repr

/-- The CIDR block of a `created` topology, if any. -/
def NetworkTopology.cidrBlock? : NetworkTopology → Option String
  | .imported _ => none
  | .created _ cidr _ _ _ => some cidr

/-- The Secrets Manager secret: name, description, template key/value
pairs of `secretStringTemplate`, and the `generateStringKey`. -/
structure SecretResource where
  secretName : String
  description : String
  templateKeys : List (String × String)
  generateStringKey : String
deriving DecidableEq, Repr

/-- CloudFormation removal policy. -/
inductive RemovalPolicy
  | retain
  | destroy
deriving DecidableEq, Repr

/-- ECR repository resource. -/
structure EcrRepoSpec where
  repositoryName : String
  removalPolicy : RemovalPolicy
  imageScanOnPush : Bool
  maxImageCount : Nat
deriving DecidableEq, Repr

/-- ECS cluster resource. -/
structure ClusterSpec where
  clusterName : String
  enableFargateCapacityProviders : Bool
  containerInsightsEnabled : Bool
deriving DecidableEq, Repr

/-- Source of an ingress rule: an IPv4 CIDR peer, or the ALB's security
group (added by `service.connections.allowFrom(alb, ...)`). -/
inductive Peer
  | ipv4 (cidr : String)
  | albSecurityGroup
deriving DecidableEq, Repr

/-- One security-group ingress rule (TCP). -/
structure IngressRule where
  peer : Peer
  tcpPort : Nat
  description : String
deriving DecidableEq, Repr

/-- Security group resource. -/
structure SecurityGroupSpec where
  securityGroupName : String
  description : String
  ingressRules : List IngressRule
deriving DecidableEq, Repr

/-- CloudWatch log group resource. -/
structure LogGroupSpec where
  logGroupName : String
  removalPolicy : RemovalPolicy
  retentionDays : Nat
deriving DecidableEq, Repr

/-- IAM role resource. -/
structure RoleSpec where
  assumedBy : String
  managedPolicies : List String
deriving DecidableEq, Repr

/-- Identities the task definition references. -/
inductive RoleId
  | executionRole
  | runtimeRole
deriving DecidableEq, Repr

/-- Container health check (the in-container probe). -/
structure HealthCheck where
  command : List String
  intervalSeconds : Nat
  timeoutSeconds : Nat
  retries : Nat
  startPeriodSeconds : Nat
deriving DecidableEq, Repr

/-- One container port mapping. -/
structure PortMapping where
  containerPort : Nat
  protocol : String
deriving DecidableEq, Repr

/-- The container definition added to the task definition.  `secrets`
maps env-var names to Secrets Manager JSON keys
(`ecs.Secret.fromSecretsManager`); `environment` holds plain env vars. -/
structure ContainerSpec where
  containerName : String
  logStream : String
  portMappings : List PortMapping
  secrets : List (String × String)
  environment : List (String × String)
  command : List String
  healthCheck : HealthCheck
deriving DecidableEq, Repr

/-- Fargate task definition. -/
structure TaskDefSpec where
  memoryLimitMiB : Nat
  cpu : Nat
  executionRoleRef : RoleId
  taskRoleRef : RoleId
  osFamily : String
  cpuArchitecture : String
deriving DecidableEq, Repr

/-- ECS deployment circuit breaker flags. -/
structure CircuitBreaker where
  enable : Bool
  rollback : Bool
deriving DecidableEq, Repr

/-- Fargate service resource.  `assignPublicIp` is not set by either
source file; the Fargate service default is no public IP. -/
structure ServiceSpec where
  serviceName : String
  desiredCount : Nat
  vpcSubnets : SubnetType
  assignPublicIp : Bool
  enableExecuteCommand : Bool
  circuitBreaker : CircuitBreaker
deriving DecidableEq, Repr

/-- ALB target-group health check. -/
structure TargetHealthCheck where
  path : String
  intervalSeconds : Nat
  healthyThresholdCount : Nat
  unhealthyThresholdCount : Nat
deriving DecidableEq, Repr

/-- ALB listener. -/
structure ListenerSpec where
  port : Nat
  protocol : String
deriving DecidableEq, Repr

/-- ALB target group (the service target added to the listener). -/
structure TargetGroupSpec where
  port : Nat
  protocol : String
  healthCheck : TargetHealthCheck
deriving DecidableEq, Repr

/-- Application Load Balancer, its listener and its target group. -/
structure AlbSpec where
  loadBalancerName : String
  internetFacing : Bool
  listener : ListenerSpec
  targets : TargetGroupSpec
deriving DecidableEq, Repr

/-- Value of a `CfnOutput`: a literal string or a deploy-time reference
(attribute of a created resource). -/
inductive OutputValue
  | literal (s : String)
  | secretArnRef
  | ecrRepoUriRef
  | clusterNameRef
  | albUrlRef
deriving DecidableEq, Repr

/-- One `CfnOutput`. -/
structure StackOutput where
  outputId : String
  value : OutputValue
  description : String
deriving DecidableEq, Repr

/-- Everything one stack constructor declares. -/
structure ResourceSpecification where
  network : NetworkTopology
  secrets : List SecretResource
  secretGrants : List RoleId
  ecrRepo : EcrRepoSpec
  cluster : ClusterSpec
  securityGroup : SecurityGroupSpec
  logGroup : LogGroupSpec
  executionRole : RoleSpec
  runtimeRole : RoleSpec
  taskDef : TaskDefSpec
  container : ContainerSpec
  service : ServiceSpec
  alb : Option AlbSpec
  cloudMapNamespace : String
  cloudMapServiceName : String
  outputs : List StackOutput
deriving DecidableEq, Repr

/-- `const MCP_PORT = 9000` (both variants). -/
def MCP_PORT : Nat := 9000

/-- The VPC both variants create when no existing VPC is imported. -/
def createdMcpVpc : NetworkTopology :=
  .created "mcp-atlassian-vpc" "10.1.0.0/16" 2 1
    [⟨24, "mcp-public", .publicSubnet⟩,
     ⟨24, "mcp-private", .privateWithEgress⟩]

/-- `if (existingVpcName) vpc = fromLookup(...) else vpc = new Vpc(...)`.
The context value has TypeScript type `string | null`; the `if` uses JS
truthiness, so both `null` and the empty string take the else branch. -/
def resolveNetwork (existingVpcName : Option String) : NetworkTopology :=
  match existingVpcName with
  | some s => if s != "" then .imported s else createdMcpVpc
  | none => createdMcpVpc

/-- The Secrets Manager secret of the shared-credentials variant, with
its placeholder `secretStringTemplate` values. -/
def atlassianSecret : SecretResource :=
  { secretName := "mcp-atlassian/credentials"
    description := "Atlassian API credentials for mcp-atlassian server"
    templateKeys :=
      [("JIRA_URL", "https://your-domain.atlassian.net"),
       ("JIRA_USERNAME", "user@company.com"),
       ("JIRA_API_TOKEN", "CHANGE_ME"),
       ("CONFLUENCE_URL", "https://your-domain.atlassian.net/wiki"),
       ("CONFLUENCE_USERNAME", "user@company.com"),
       ("CONFLUENCE_API_TOKEN", "CHANGE_ME")]
    generateStringKey := "_rotation_placeholder" }

/-- ECS cluster (identical in both variants). -/
def mcpCluster : ClusterSpec :=
  { clusterName := "mcp-atlassian-cluster"
    enableFargateCapacityProviders := true
    containerInsightsEnabled := true }

/-- CloudWatch log group (identical in both variants). -/
def mcpLogGroup : LogGroupSpec :=
  { logGroupName := "/ecs/mcp-atlassian"
    removalPolicy := .destroy
    retentionDays := 14 }

/-- Task execution role (identical in both variants). -/
def taskExecutionRole : RoleSpec :=
  { assumedBy := "ecs-tasks.amazonaws.com"
    managedPolicies := ["service-role/AmazonECSTaskExecutionRolePolicy"] }

/-- Task (runtime) role (identical in both variants): no policies. -/
def taskRole : RoleSpec :=
  { assumedBy := "ecs-tasks.amazonaws.com"
    managedPolicies := [] }

/-- Fargate task definition (identical in both variants). -/
def mcpTaskDef : TaskDefSpec :=
  { memoryLimitMiB := 512
    cpu := 256
    executionRoleRef := .executionRole
    taskRoleRef := .runtimeRole
    osFamily := "LINUX"
    cpuArchitecture := "X86_64" }

/-- Fargate service (identical in both variants). -/
def mcpService : ServiceSpec :=
  { serviceName := "mcp-atlassian"
    desiredCount := 1
    vpcSubnets := .privateWithEgress
    assignPublicIp := false
    enableExecuteCommand := true
    circuitBreaker := { enable := true, rollback := true } }

/-- Container of the shared-credentials variant: six env vars injected
from Secrets Manager, no plain environment, probing `/mcp`. -/
def sharedContainer : ContainerSpec :=
  { containerName := "mcp-atlassian"
    logStream := "mcp"
    portMappings := [⟨MCP_PORT, "TCP"⟩]
    secrets :=
      [("JIRA_URL", "JIRA_URL"),
       ("JIRA_USERNAME", "JIRA_USERNAME"),
       ("JIRA_API_TOKEN", "JIRA_API_TOKEN"),
       ("CONFLUENCE_URL", "CONFLUENCE_URL"),
       ("CONFLUENCE_USERNAME", "CONFLUENCE_USERNAME"),
       ("CONFLUENCE_API_TOKEN", "CONFLUENCE_API_TOKEN")]
    environment := []
    command := ["--transport", "http", "--port", toString MCP_PORT]
    healthCheck :=
      { command := ["CMD-SHELL",
          "wget -qO- http://localhost:" ++ toString MCP_PORT ++ "/mcp || exit 1"]
        intervalSeconds := 30
        timeoutSeconds := 5
        retries := 3
        startPeriodSeconds := 15 } }

/-- Container of the per-request-oauth variant: no secret injection,
three plain env vars, probing `/healthz`. -/
def oauthContainer : ContainerSpec :=
  { containerName := "mcp-atlassian"
    logStream := "mcp"
    portMappings := [⟨MCP_PORT, "TCP"⟩]
    secrets := []
    environment :=
      [("ATLASSIAN_OAUTH_ENABLE", "true"),
       ("JIRA_URL", "https://cloudgeometry.atlassian.net"),
       ("CONFLUENCE_URL", "https://cloudgeometry.atlassian.net/wiki")]
    command := ["--transport", "streamable-http", "--host", "0.0.0.0",
                "--port", toString MCP_PORT]
    healthCheck :=
      { command := ["CMD-SHELL",
          "wget -qO- http://localhost:" ++ toString MCP_PORT ++ "/healthz || exit 1"]
        intervalSeconds := 30
        timeoutSeconds := 5
        retries := 3
        startPeriodSeconds := 15 } }

/-- ALB, listener and target group of the public-alb variant. -/
def mcpAlb : AlbSpec :=
  { loadBalancerName := "mcp-atlassian-alb"
    internetFacing := true
    listener := { port := 80, protocol := "HTTP" }
    targets :=
      { port := MCP_PORT
        protocol := "HTTP"
        healthCheck :=
          { path := "/healthz"
            intervalSeconds := 30
            healthyThresholdCount := 2
            unhealthyThresholdCount := 3 } } }

/-- The ingress rule both variants add from the allowed CIDR. -/
def allowedCidrRule (allowedCidr : String) : IngressRule :=
  ⟨Peer.ipv4 allowedCidr, MCP_PORT, "Allow MCP traffic from LangBuilder"⟩

/-- The rule `service.connections.allowFrom(alb, Port.tcp(MCP_PORT), ...)`
adds in the public-alb variant. -/
def albIngressRule : IngressRule :=
  ⟨Peer.albSecurityGroup, MCP_PORT, "Allow ALB to reach MCP server"⟩

/-- Outputs of the shared-credentials variant, in declaration order. -/
def sharedOutputs : List StackOutput :=
  [⟨"SecretArn", .secretArnRef,
    "ARN of the Atlassian credentials secret — update via AWS Console or CLI"⟩,
   ⟨"ServiceDiscoveryEndpoint",
    .literal ("atlassian.mcp.internal:" ++ toString MCP_PORT),
    "Internal DNS endpoint for the MCP server (from within the VPC)"⟩,
   ⟨"EcrRepoUri", .ecrRepoUriRef,
    "ECR repository URI for pushing custom images"⟩,
   ⟨"ClusterName", .clusterNameRef,
    "ECS cluster name (for aws ecs execute-command debugging)"⟩]

/-- Outputs of the public-alb variant, in declaration order. -/
def oauthOutputs : List StackOutput :=
  [⟨"AlbEndpoint", .albUrlRef,
    "Public URL for the MCP server (use as MCP Server URL in LangBuilder)"⟩,
   ⟨"ServiceDiscoveryEndpoint",
    .literal ("atlassian.mcp.internal:" ++ toString MCP_PORT),
    "Internal DNS endpoint for the MCP server (from within the VPC)"⟩,
   ⟨"EcrRepoUri", .ecrRepoUriRef,
    "ECR repository URI for pushing custom images"⟩,
   ⟨"ClusterName", .clusterNameRef,
    "ECS cluster name (for aws ecs execute-command debugging)"⟩]

/-- Embedding of the `McpAtlassianStack` constructor of
`cdk/lib/mcp-atlassian-stack.ts` (shared-credentials, private-only):
Secrets Manager secret with `grantRead(taskExecutionRole)`, ECR repo
retained on delete, no load balancer. -/
def resolveShared (existingVpcName allowedCidrCtx : Option String) :
    ResourceSpecification :=
  { network := resolveNetwork existingVpcName
    secrets := [atlassianSecret]
    secretGrants := [RoleId.executionRole]
    ecrRepo :=
      { repositoryName := "mcp-atlassian"
        removalPolicy := .retain
        imageScanOnPush := true
        maxImageCount := 10 }
    cluster := mcpCluster
    securityGroup :=
      { securityGroupName := "mcp-atlassian-sg"
        description := "MCP Atlassian server — inbound from LangBuilder only"
        ingressRules := [allowedCidrRule (allowedCidrCtx.getD "10.0.0.0/16")] }
    logGroup := mcpLogGroup
    executionRole := taskExecutionRole
    runtimeRole := taskRole
    taskDef := mcpTaskDef
    container := sharedContainer
    service := mcpService
    alb := none
    cloudMapNamespace := "mcp.internal"
    cloudMapServiceName := "atlassian"
    outputs := sharedOutputs }

/-- Embedding of the ALB-variant `McpAtlassianStack` constructor
(per-request-oauth, public-alb): no secret, three plain env vars, ECR
repo destroyed on delete, public ALB with listener on port 80 and an
added security-group rule letting the ALB reach the service. -/
def resolveOauthAlb (existingVpcName allowedCidrCtx : Option String) :
    ResourceSpecification :=
  { network := resolveNetwork existingVpcName
    secrets := []
    secretGrants := []
    ecrRepo :=
      { repositoryName := "mcp-atlassian"
        removalPolicy := .destroy
        imageScanOnPush := true
        maxImageCount := 10 }
    cluster := mcpCluster
    securityGroup :=
      { securityGroupName := "mcp-atlassian-sg"
        description := "MCP Atlassian server - inbound from LangBuilder only"
        ingressRules := [allowedCidrRule (allowedCidrCtx.getD "10.0.0.0/16"),
                         albIngressRule] }
    logGroup := mcpLogGroup
    executionRole := taskExecutionRole
    runtimeRole := taskRole
    taskDef := mcpTaskDef
    container := oauthContainer
    service := mcpService
    alb := some mcpAlb
    cloudMapNamespace := "mcp.internal"
    cloudMapServiceName := "atlassian"
    outputs := oauthOutputs }

/-- Topology resolution: dispatch to the embedding of the variant the
configuration selects. -/
def resolve (cfg : DeploymentConfig) : ResourceSpecification :=
  match cfg.variant with
  | .sharedPrivate => resolveShared cfg.existingVpcName cfg.allowedCidr
  | .oauthAlb => resolveOauthAlb cfg.existingVpcName cfg.allowedCidr

/-- The stack constructor read through the CDK context mechanism: it
consumes exactly the context keys `existingVpcName` and `allowedCidr`. -/
def resolveFromContext (tryGetContext : String → Option String)
    (v : Variant) : ResourceSpecification :=
  resolve ⟨tryGetContext "existingVpcName", tryGetContext "allowedCidr", v⟩

/-- Split a character list on a separator character. -/
def splitOnChar (sep : Char) : List Char → List (List Char)
  | [] => [[]]
  | x :: xs =>
    let r := splitOnChar sep xs
    if x = sep then [] :: r
    else
      match r with
      | [] => [[x]]
      | y :: ys => (x :: y) :: ys

/-- Numeric value of a decimal digit character, if it is one. -/
def digitVal (c : Char) : Option Nat :=
  if c.isDigit then some (c.toNat - 48) else none

/-- Accumulate a decimal number over a digit list. -/
def natOfDigitsAux : List Char → Nat → Option Nat
  | [], acc => some acc
  | c :: cs, acc =>
    match digitVal c with
    | some d => natOfDigitsAux cs (acc * 10 + d)
    | none => none

/-- Parse a non-empty decimal digit list as a natural number. -/
def natOfDigits : List Char → Option Nat
  | [] => none
  | c :: cs => natOfDigitsAux (c :: cs) 0

/-- Parse a dotted-quad IPv4 address as its 32-bit numeric value. -/
def parseIpv4 (s : String) : Option Nat :=
  match (splitOnChar '.' s.toList).mapM natOfDigits with
  | some [a, b, c, d] =>
    if a < 256 && b < 256 && c < 256 && d < 256 then
      some (((a * 256 + b) * 256 + c) * 256 + d)
    else none
  | _ => none

/-- Parse an IPv4 CIDR string `a.b.c.d/p` as (numeric base, mask length). -/
def parseCidr (s : String) : Option (Nat × Nat) :=
  match splitOnChar '/' s.toList with
  | [ip, m] =>
    match parseIpv4 (String.mk ip), natOfDigits m with
    | some a, some p => if p ≤ 32 then some (a, p) else none
    | _, _ => none
  | _ => none

/-- An IPv4 address (numeric) lies in a CIDR range (base, mask length). -/
def memCidr (ip : Nat) (c : Nat × Nat) : Prop :=
  ip / 2 ^ (32 - c.2) = c.1 / 2 ^ (32 - c.2)

instance (ip : Nat) (c : Nat × Nat) : Decidable (memCidr ip c) :=
  Nat.decEq _ _

/-- Drop list elements up to and including the first occurrence of the
pattern; `none` if the pattern does not occur. -/
def dropThrough (pat : List Char) : List Char → Option (List Char)
  | [] => none
  | x :: xs =>
    if (x :: xs).take pat.length = pat then some ((x :: xs).drop pat.length)
    else dropThrough pat xs

/-- The URL path probed by a health-check command of the shape
`wget -qO- http://localhost:<MCP_PORT><path> || exit 1` (the shape both
variants use). -/
def wgetLocalhostPath (s : String) : String :=
  match dropThrough ("localhost:" ++ toString MCP_PORT).toList s.toList with
  | some rest => String.mk (rest.takeWhile (fun c => c ≠ ' '))
  | none => ""

/-- The container's internal health-check path of a resolved spec. -/
def containerHealthPath (r : ResourceSpecification) : String :=
  wgetLocalhostPath (r.container.healthCheck.command.getD 1 "")

/-- The ALB target-group health-check path of a resolved spec, if an ALB
is present. -/
def albTargetHealthPath (r : ResourceSpecification) : Option String :=
  r.alb.map (fun a => a.targets.healthCheck.path)

/-- Deployment outcome states of the provisioning backend. -/
inductive DeployState
  | healthy
  | rolledBack
  | failedFatal
deriving DecidableEq, Repr

/-- Modelled from the spec: the deployment-window behaviour of the
provisioning backend (the ECS deployment circuit breaker) is AWS-side and
not part of this repository; per the spec, with the circuit breaker
enabled and rollback on, a deployment that never reaches a healthy state
is rolled back to the last-known-good topology rather than failing
fatally. -/
def applyOutcome (cb : CircuitBreaker) (reachedHealthy : Bool) : DeployState :=
  if reachedHealthy then .healthy
  else if cb.enable && cb.rollback then .rolledBack
  else .failedFatal

/-- Claim C1, counterexample: in the per-request-oauth variant the
container receives three plain environment variables
(`ATLASSIAN_OAUTH_ENABLE` and the two base URLs), not exactly two as the
claim states. -/
theorem c1_counterexample :
    ((resolve ⟨none, none, Variant.oauthAlb⟩).container.environment.map Prod.fst
      = ["ATLASSIAN_OAUTH_ENABLE", "JIRA_URL", "CONFLUENCE_URL"]) ∧
    (resolve ⟨none, none, Variant.oauthAlb⟩).container.environment.length ≠ 2 := by
  exact ⟨rfl, by decide⟩

/-- Claim C1 (amended): for every per-request-oauth configuration, the
resolved specification contains zero credential-store resources, no
secret grants and no secret-injected container variables, and the
container receives exactly three non-secret configuration values as plain
environment variables: the OAuth-enable flag and the Jira and Confluence
base URLs. -/
theorem c1_oauth_no_secrets (cfg : DeploymentConfig)
    (h : cfg.variant.authMode = AuthMode.perRequestOauth) :
    (resolve cfg).secrets = [] ∧
    (resolve cfg).secretGrants = [] ∧
    (resolve cfg).container.secrets = [] ∧
    (resolve cfg).container.environment =
      [("ATLASSIAN_OAUTH_ENABLE", "true"),
       ("JIRA_URL", "https://cloudgeometry.atlassian.net"),
       ("CONFLUENCE_URL", "https://cloudgeometry.atlassian.net/wiki")] := by
  obtain ⟨e, a, v⟩ := cfg
  cases v
  · simp [Variant.authMode] at h
  · exact ⟨rfl, rfl, rfl, rfl⟩

/-- Witness for C1's amended theorem at a concrete configuration. -/
theorem c1_oauth_no_secrets_witness :
    (resolve ⟨none, none, Variant.oauthAlb⟩).secrets = [] ∧
    (resolve ⟨none, none, Variant.oauthAlb⟩).secretGrants = [] ∧
    (resolve ⟨none, none, Variant.oauthAlb⟩).container.secrets = [] ∧
    (resolve ⟨none, none, Variant.oauthAlb⟩).container.environment =
      [("ATLASSIAN_OAUTH_ENABLE", "true"),
       ("JIRA_URL", "https://cloudgeometry.atlassian.net"),
       ("CONFLUENCE_URL", "https://cloudgeometry.atlassian.net/wiki")] :=
  c1_oauth_no_secrets ⟨none, none, Variant.oauthAlb⟩ rfl

/-- Claim C2: for every shared-credentials configuration, exactly one
credential-store resource is created, seeded with placeholder values, and
read access is granted only to the execution identity; the runtime
identity receives no grant. -/
theorem c2_shared_secret_grants (cfg : DeploymentConfig)
    (h : cfg.variant.authMode = AuthMode.sharedCredentials) :
    (resolve cfg).secrets = [atlassianSecret] ∧
    ("JIRA_API_TOKEN", "CHANGE_ME") ∈ atlassianSecret.templateKeys ∧
    ("CONFLUENCE_API_TOKEN", "CHANGE_ME") ∈ atlassianSecret.templateKeys ∧
    (resolve cfg).secretGrants = [RoleId.executionRole] ∧
    RoleId.runtimeRole ∉ (resolve cfg).secretGrants := by
  obtain ⟨e, a, v⟩ := cfg
  cases v
  · exact ⟨rfl, by decide, by decide, rfl,
      by show RoleId.runtimeRole ∉ [RoleId.executionRole]; decide⟩
  · simp [Variant.authMode] at h

/-- Witness for C2 at a concrete configuration. -/
theorem c2_shared_secret_grants_witness :
    (resolve ⟨none, none, Variant.sharedPrivate⟩).secrets = [atlassianSecret] ∧
    ("JIRA_API_TOKEN", "CHANGE_ME") ∈ atlassianSecret.templateKeys ∧
    ("CONFLUENCE_API_TOKEN", "CHANGE_ME") ∈ atlassianSecret.templateKeys ∧
    (resolve ⟨none, none, Variant.sharedPrivate⟩).secretGrants = [RoleId.executionRole] ∧
    RoleId.runtimeRole ∉ (resolve ⟨none, none, Variant.sharedPrivate⟩).secretGrants :=
  c2_shared_secret_grants ⟨none, none, Variant.sharedPrivate⟩ rfl

/-- Claim C3, counterexample: the context value has TypeScript type
`string | null` and the branch uses JS truthiness, so a configuration
with `existingVpcName` set to the empty string produces a freshly created
network descriptor instead of an imported topology. -/
theorem c3_counterexample :
    (resolve ⟨some "", none, Variant.sharedPrivate⟩).network
      = NetworkTopology.created "mcp-atlassian-vpc" "10.1.0.0/16" 2 1
          [⟨24, "mcp-public", SubnetType.publicSubnet⟩,
           ⟨24, "mcp-private", SubnetType.privateWithEgress⟩] := by
  rfl

/-- Claim C3 (amended): for every configuration with `existingVpcName`
set to a non-empty name, the topology is Imported with that name and no
Created descriptor is produced (existence is not validated at resolve
time); for every configuration with `existingVpcName` absent or empty,
exactly one Created descriptor is produced, with two subnet tiers (public
and private-with-egress) across two availability zones and one NAT
egress path. -/
theorem c3_network_topology (cfg : DeploymentConfig) :
    (∀ n, cfg.existingVpcName = some n → n ≠ "" →
      (resolve cfg).network = NetworkTopology.imported n) ∧
    ((cfg.existingVpcName = none ∨ cfg.existingVpcName = some "") →
      (resolve cfg).network
        = NetworkTopology.created "mcp-atlassian-vpc" "10.1.0.0/16" 2 1
            [⟨24, "mcp-public", SubnetType.publicSubnet⟩,
             ⟨24, "mcp-private", SubnetType.privateWithEgress⟩]) := by
  obtain ⟨e, a, v⟩ := cfg
  constructor
  · intro n hn hne
    cases hn
    cases v <;>
      simp [resolve, resolveShared, resolveOauthAlb, resolveNetwork, hne]
  · rintro (h | h) <;> cases h <;> cases v <;> rfl

/-- Witness for C3's amended theorem at concrete configurations. -/
theorem c3_network_topology_witness :
    (resolve ⟨some "shared-vpc", none, Variant.sharedPrivate⟩).network
      = NetworkTopology.imported "shared-vpc" :=
  (c3_network_topology ⟨some "shared-vpc", none, Variant.sharedPrivate⟩).1
    "shared-vpc" rfl (by decide)

/-- Claim C4, counterexample: in the public-alb variant the load
balancer's target health-check path is not separate from the container's
internal health-check path — both are `/healthz`. -/
theorem c4_counterexample :
    albTargetHealthPath (resolve ⟨none, none, Variant.oauthAlb⟩)
      = some (containerHealthPath (resolve ⟨none, none, Variant.oauthAlb⟩)) := by
  decide

/-- Claim C4 (amended): a public-alb resolution always includes a layer-7
load balancer with a public listener on port 80, distinct from the
internal service port, forwarding to the service's private port 9000,
with a separately configured target health check whose path in fact
equals the container's internal health-check path (`/healthz`); a
private-only resolution never includes a load-balancer listener. -/
theorem c4_exposure (cfg : DeploymentConfig) :
    (cfg.variant.exposureMode = ExposureMode.publicAlb →
      (resolve cfg).alb = some mcpAlb ∧
      mcpAlb.listener.port = 80 ∧
      mcpAlb.listener.port ≠ MCP_PORT ∧
      mcpAlb.targets.port = MCP_PORT ∧
      mcpAlb.targets.healthCheck.path = containerHealthPath (resolve cfg)) ∧
    (cfg.variant.exposureMode = ExposureMode.privateOnly →
      (resolve cfg).alb = none) := by
  obtain ⟨e, a, v⟩ := cfg
  cases v
  · exact ⟨fun h => by simp [Variant.exposureMode] at h, fun _ => rfl⟩
  · exact ⟨fun _ => ⟨rfl, rfl, by decide, rfl, rfl⟩,
      fun h => by simp [Variant.exposureMode] at h⟩

/-- Witness for C4's amended theorem at a concrete configuration. -/
theorem c4_exposure_witness :
    (resolve ⟨none, none, Variant.oauthAlb⟩).alb = some mcpAlb ∧
    mcpAlb.listener.port = 80 ∧
    mcpAlb.listener.port ≠ MCP_PORT ∧
    mcpAlb.targets.port = MCP_PORT ∧
    mcpAlb.targets.healthCheck.path
      = containerHealthPath (resolve ⟨none, none, Variant.oauthAlb⟩) :=
  (c4_exposure ⟨none, none, Variant.oauthAlb⟩).1 rfl

/-- Claim C5: every resolved topology, in both stack variants, enables
the deployment circuit breaker with rollback, so a deployment that never
reaches a healthy state within its window is rolled back rather than
failing fatally (backend rollback behaviour modelled from the spec in
`applyOutcome`). -/
theorem c5_rollback_policy (cfg : DeploymentConfig) :
    (resolve cfg).service.circuitBreaker = ⟨true, true⟩ ∧
    applyOutcome (resolve cfg).service.circuitBreaker false
      = DeployState.rolledBack ∧
    applyOutcome (resolve cfg).service.circuitBreaker false
      ≠ DeployState.failedFatal := by
  obtain ⟨e, a, v⟩ := cfg
  cases v <;>
    exact ⟨rfl, rfl,
      by show DeployState.rolledBack ≠ DeployState.failedFatal; decide⟩

/-- Witness for C5 at a concrete configuration. -/
theorem c5_rollback_policy_witness :
    (resolve ⟨none, none, Variant.sharedPrivate⟩).service.circuitBreaker
      = ⟨true, true⟩ ∧
    applyOutcome (resolve ⟨none, none, Variant.sharedPrivate⟩).service.circuitBreaker false
      = DeployState.rolledBack ∧
    applyOutcome (resolve ⟨none, none, Variant.sharedPrivate⟩).service.circuitBreaker false
      ≠ DeployState.failedFatal :=
  c5_rollback_policy ⟨none, none, Variant.sharedPrivate⟩

/-- Claim C6: resolution is deterministic and pure — the stack
constructor is a total function of exactly the two declared context
inputs, so two resolutions that see the same values for
`existingVpcName` and `allowedCidr` yield structurally identical
resource specifications, whatever else the context holds. -/
theorem c6_deterministic (g₁ g₂ : String → Option String) (v : Variant)
    (h₁ : g₁ "existingVpcName" = g₂ "existingVpcName")
    (h₂ : g₁ "allowedCidr" = g₂ "allowedCidr") :
    resolveFromContext g₁ v = resolveFromContext g₂ v := by
  unfold resolveFromContext
  rw [h₁, h₂]

/-- Witness for C6: two different context maps that agree on the two
declared keys resolve identically. -/
theorem c6_deterministic_witness :
    resolveFromContext
        (fun k => if k = "allowedCidr" then some "10.2.0.0/16" else none)
        Variant.sharedPrivate
      = resolveFromContext
        (fun k => if k = "unrelatedKey" then some "ignored"
          else if k = "allowedCidr" then some "10.2.0.0/16" else none)
        Variant.sharedPrivate :=
  c6_deterministic _ _ _ (by decide) (by decide)

/-- Claim C7: for every shared-credentials resolution, the operator-facing
outputs are exactly: an opaque reference to the credential store entry,
the internal DNS endpoint string of the form
`<service>.<namespace>:<port>` (here `atlassian.mcp.internal:9000`), the
image-registry URI reference, and the cluster identifier reference —
never literal credential values. -/
theorem c7_shared_outputs (cfg : DeploymentConfig)
    (h : cfg.variant.authMode = AuthMode.sharedCredentials) :
    (resolve cfg).outputs.map StackOutput.value =
      [OutputValue.secretArnRef,
       OutputValue.literal
         ((resolve cfg).cloudMapServiceName ++ "."
           ++ (resolve cfg).cloudMapNamespace ++ ":" ++ toString MCP_PORT),
       OutputValue.ecrRepoUriRef,
       OutputValue.clusterNameRef] ∧
    (resolve cfg).outputs.map StackOutput.outputId =
      ["SecretArn", "ServiceDiscoveryEndpoint", "EcrRepoUri", "ClusterName"] ∧
    (resolve cfg).cloudMapServiceName ++ "." ++ (resolve cfg).cloudMapNamespace
      ++ ":" ++ toString MCP_PORT = "atlassian.mcp.internal:9000" := by
  obtain ⟨e, a, v⟩ := cfg
  cases v
  · exact ⟨rfl, rfl, rfl⟩
  · simp [Variant.authMode] at h

/-- Witness for C7 at a concrete configuration. -/
theorem c7_shared_outputs_witness :
    (resolve ⟨none, none, Variant.sharedPrivate⟩).outputs.map StackOutput.outputId =
      ["SecretArn", "ServiceDiscoveryEndpoint", "EcrRepoUri", "ClusterName"] :=
  (c7_shared_outputs ⟨none, none, Variant.sharedPrivate⟩ rfl).2.1

/-- Claim C8, counterexample: the image-registry teardown policy does not
coincide between the two stack variants — the shared-credentials variant
retains the repository on delete while the public-alb variant destroys
it. -/
theorem c8_counterexample :
    (resolveShared none none).ecrRepo.removalPolicy
      ≠ (resolveOauthAlb none none).ecrRepo.removalPolicy := by
  decide

/-- Claim C8 (amended): the two stack variants share the same resolver
shape — for every configuration they agree on the network topology,
cluster, log group, both IAM roles, task definition, service policy,
service-discovery naming, registry name/scanning/lifecycle, health-check
timing, and security-group name, and differ in the exposure-mode
resources (ALB, its added security-group rule) and credential-mode
resources (secret and its grant) — but they have additionally drifted in
shared resources: the image-registry teardown policy (retain vs destroy),
the container command, the container health-check path (`/mcp` vs
`/healthz`), and the security-group description text. -/
theorem c8_variant_drift (e a : Option String) :
    (resolveShared e a).network = (resolveOauthAlb e a).network ∧
    (resolveShared e a).cluster = (resolveOauthAlb e a).cluster ∧
    (resolveShared e a).logGroup = (resolveOauthAlb e a).logGroup ∧
    (resolveShared e a).executionRole = (resolveOauthAlb e a).executionRole ∧
    (resolveShared e a).runtimeRole = (resolveOauthAlb e a).runtimeRole ∧
    (resolveShared e a).taskDef = (resolveOauthAlb e a).taskDef ∧
    (resolveShared e a).service = (resolveOauthAlb e a).service ∧
    (resolveShared e a).cloudMapNamespace = (resolveOauthAlb e a).cloudMapNamespace ∧
    (resolveShared e a).cloudMapServiceName = (resolveOauthAlb e a).cloudMapServiceName ∧
    (resolveShared e a).ecrRepo.repositoryName = (resolveOauthAlb e a).ecrRepo.repositoryName ∧
    (resolveShared e a).ecrRepo.imageScanOnPush = (resolveOauthAlb e a).ecrRepo.imageScanOnPush ∧
    (resolveShared e a).ecrRepo.maxImageCount = (resolveOauthAlb e a).ecrRepo.maxImageCount ∧
    (resolveShared e a).container.healthCheck.intervalSeconds
      = (resolveOauthAlb e a).container.healthCheck.intervalSeconds ∧
    (resolveShared e a).container.healthCheck.timeoutSeconds
      = (resolveOauthAlb e a).container.healthCheck.timeoutSeconds ∧
    (resolveShared e a).container.healthCheck.retries
      = (resolveOauthAlb e a).container.healthCheck.retries ∧
    (resolveShared e a).container.healthCheck.startPeriodSeconds
      = (resolveOauthAlb e a).container.healthCheck.startPeriodSeconds ∧
    (resolveShared e a).securityGroup.securityGroupName
      = (resolveOauthAlb e a).securityGroup.securityGroupName ∧
    (resolveOauthAlb e a).securityGroup.ingressRules
      = (resolveShared e a).securityGroup.ingressRules ++ [albIngressRule] ∧
    (resolveShared e a).alb = none ∧
    (resolveOauthAlb e a).alb = some mcpAlb ∧
    (resolveShared e a).secrets = [atlassianSecret] ∧
    (resolveOauthAlb e a).secrets = [] ∧
    (resolveShared e a).ecrRepo.removalPolicy ≠ (resolveOauthAlb e a).ecrRepo.removalPolicy ∧
    (resolveShared e a).container.command ≠ (resolveOauthAlb e a).container.command ∧
    containerHealthPath (resolveShared e a) = "/mcp" ∧
    containerHealthPath (resolveOauthAlb e a) = "/healthz" ∧
    (resolveShared e a).securityGroup.description
      ≠ (resolveOauthAlb e a).securityGroup.description := by
  refine ⟨rfl, rfl, rfl, rfl, rfl, rfl, rfl, rfl, rfl, rfl, rfl, rfl, rfl, rfl,
    rfl, rfl, rfl, rfl, rfl, rfl, rfl, rfl, ?_, ?_, rfl, rfl, ?_⟩
  · show RemovalPolicy.retain ≠ RemovalPolicy.destroy
    decide
  · show sharedContainer.command ≠ oauthContainer.command
    decide
  · show ("MCP Atlassian server — inbound from LangBuilder only" : String)
      ≠ "MCP Atlassian server - inbound from LangBuilder only"
    decide

/-- Witness for C8's amended theorem at a concrete configuration. -/
theorem c8_variant_drift_witness :
    (resolveShared none none).network = (resolveOauthAlb none none).network :=
  (c8_variant_drift none none).1

/-- Claim C9: in every configuration of both variants, the service's
tasks are placed only in private-with-egress subnets with no public IP;
in the public-alb variant only the load balancer is internet-facing, and
it reaches the service solely through the explicitly added
security-group rule on TCP port 9000. -/
theorem c9_private_placement (cfg : DeploymentConfig) :
    (resolve cfg).service.vpcSubnets = SubnetType.privateWithEgress ∧
    (resolve cfg).service.assignPublicIp = false ∧
    (cfg.variant.exposureMode = ExposureMode.publicAlb →
      (resolve cfg).alb = some mcpAlb ∧
      mcpAlb.internetFacing = true ∧
      (resolve cfg).securityGroup.ingressRules
        = [allowedCidrRule (cfg.allowedCidr.getD "10.0.0.0/16"), albIngressRule] ∧
      albIngressRule
        = ⟨Peer.albSecurityGroup, MCP_PORT, "Allow ALB to reach MCP server"⟩) ∧
    (cfg.variant.exposureMode = ExposureMode.privateOnly →
      (resolve cfg).alb = none ∧
      (resolve cfg).securityGroup.ingressRules
        = [allowedCidrRule (cfg.allowedCidr.getD "10.0.0.0/16")]) := by
  obtain ⟨e, a, v⟩ := cfg
  cases v
  · exact ⟨rfl, rfl, fun h => by simp [Variant.exposureMode] at h,
      fun _ => ⟨rfl, rfl⟩⟩
  · exact ⟨rfl, rfl, fun _ => ⟨rfl, rfl, rfl, rfl⟩,
      fun h => by simp [Variant.exposureMode] at h⟩

/-- Witness for C9 at a concrete configuration. -/
theorem c9_private_placement_witness :
    (resolve ⟨none, none, Variant.oauthAlb⟩).alb = some mcpAlb ∧
    (resolve ⟨none, none, Variant.oauthAlb⟩).securityGroup.ingressRules
      = [allowedCidrRule "10.0.0.0/16", albIngressRule] :=
  ⟨((c9_private_placement ⟨none, none, Variant.oauthAlb⟩).2.2.1 rfl).1,
   ((c9_private_placement ⟨none, none, Variant.oauthAlb⟩).2.2.1 rfl).2.2.1⟩

/-- Claim C10: with `existingVpcName` absent and `allowedCidr` not
supplied, the created network uses CIDR block `10.1.0.0/16` while the
ingress rule admits only the default `10.0.0.0/16`; these two ranges are
disjoint, so the default fresh-VPC deployment admits no inbound traffic
from any address inside its own VPC. -/
theorem c10_disjoint_default_cidrs :
    (resolve ⟨none, none, Variant.sharedPrivate⟩).network.cidrBlock?
      = some "10.1.0.0/16" ∧
    (resolve ⟨none, none, Variant.oauthAlb⟩).network.cidrBlock?
      = some "10.1.0.0/16" ∧
    (resolve ⟨none, none, Variant.sharedPrivate⟩).securityGroup.ingressRules
      = [allowedCidrRule "10.0.0.0/16"] ∧
    (resolve ⟨none, none, Variant.oauthAlb⟩).securityGroup.ingressRules
      = [allowedCidrRule "10.0.0.0/16", albIngressRule] ∧
    parseCidr "10.1.0.0/16" = some (167837696, 16) ∧
    parseCidr "10.0.0.0/16" = some (167772160, 16) ∧
    (∀ ip, memCidr ip (167837696, 16) → ¬ memCidr ip (167772160, 16)) := by
  refine ⟨rfl, rfl, rfl, rfl, by decide, by decide, ?_⟩
  intro ip h1 h2
  unfold memCidr at h1 h2
  norm_num at h1 h2
  omega

/-- Witness for C10: a concrete address of the created VPC that the
default ingress rule does not admit. -/
theorem c10_disjoint_default_cidrs_witness :
    ¬ memCidr 167837696 (167772160, 16) :=
  c10_disjoint_default_cidrs.2.2.2.2.2.2 167837696 (by decide)

end McpAtlassian
